import Mathlib

/-!
Shallow embedding of `src/aquacomputer-octo.c` (hwmon driver for the
Aquacomputer Octo fan controller) and proofs about the claims of its
specification.

Modelling conventions:
* A raw HID report buffer is a total function `Nat → Nat` giving the byte at
  each address; bytes are reduced mod 256 at every read, as `u8` memory.  A
  total function (rather than a finite list) is used because the C code indexes
  the buffer by fixed offsets without consulting the `size` argument, so reads
  past the reported size land in adjacent memory and still yield some byte.
* The per-device struct `octo_data` is embedded with each C array as a total
  function from the index; indices beyond the declared C array length stand for
  whatever adjacent memory an out-of-bounds C index would reach.
* Machine integers are `Nat`/`Int` with an explicit `% 2 ^ w` exactly where the
  C assignment truncates: the only narrowing assignment in the decoder is the
  store of `get_unaligned_be16(...) * 10` into the `u16` array
  `voltage_input`, which truncates mod `2 ^ 16`.
* `jiffies` and `unsigned long` arithmetic are mod `2 ^ 64`; the kernel macro
  `time_after(a, b)` is `(long)((b) - (a)) < 0`, embedded as a test that the
  wrapped difference is at least `2 ^ 63`.
* `HZ` is a kernel configuration constant, so everything depending on
  `OCTO_STATUS_UPDATE_INTERVAL = 2 * HZ` is parameterised by `hz`.
-/

namespace AquacomputerOcto

/-- The sensor types of `enum hwmon_sensor_types` that this driver's switch
statements distinguish, plus one stand-in constructor for every other value
(they all reach the `default:` branch). -/
inductive hwmon_sensor_types where
  | hwmon_temp
  | hwmon_fan
  | hwmon_power
  | hwmon_in
  | hwmon_curr
  | hwmon_other
deriving DecidableEq, Repr

/-- Linux errno `ENODATA` (returned as `-ENODATA`). -/
def ENODATA : Int := 61

/-- Linux errno `EOPNOTSUPP` (returned as `-EOPNOTSUPP`). -/
def EOPNOTSUPP : Int := 95

/-- `unsigned long` modulus (64-bit kernel). -/
def ULONG_MOD : Nat := 2 ^ 64

def OCTO_STATUS_REPORT_ID : Nat := 0x01

/-- `#define OCTO_STATUS_UPDATE_INTERVAL (2 * HZ)`; `HZ` is a kernel
configuration constant, passed as a parameter. -/
def OCTO_STATUS_UPDATE_INTERVAL (hz : Nat) : Nat := 2 * hz

/- Register offsets for the Octo -/

def OCTO_SERIAL_FIRST_PART : Nat := 3
def OCTO_SERIAL_SECOND_PART : Nat := 5
def OCTO_FIRMWARE_VERSION : Nat := 13
def OCTO_POWER_CYCLES : Nat := 24

def OCTO_TEMP1 : Nat := 61
def OCTO_TEMP2 : Nat := 63
def OCTO_TEMP3 : Nat := 65
def OCTO_TEMP4 : Nat := 67

def OCTO_FLOW_SPEED : Nat := 123
def OCTO_FAN1_SPEED : Nat := 133
def OCTO_FAN2_SPEED : Nat := 146
def OCTO_FAN3_SPEED : Nat := 159
def OCTO_FAN4_SPEED : Nat := 172
def OCTO_FAN5_SPEED : Nat := 185
def OCTO_FAN6_SPEED : Nat := 198
def OCTO_FAN7_SPEED : Nat := 211
def OCTO_FAN8_SPEED : Nat := 224

def OCTO_FAN1_POWER : Nat := 131
def OCTO_FAN2_POWER : Nat := 144
def OCTO_FAN3_POWER : Nat := 157
def OCTO_FAN4_POWER : Nat := 170
def OCTO_FAN5_POWER : Nat := 183
def OCTO_FAN6_POWER : Nat := 196
def OCTO_FAN7_POWER : Nat := 209
def OCTO_FAN8_POWER : Nat := 222

def OCTO_VOLTAGE : Nat := 117
def OCTO_FAN1_VOLTAGE : Nat := 127
def OCTO_FAN2_VOLTAGE : Nat := 140
def OCTO_FAN3_VOLTAGE : Nat := 153
def OCTO_FAN4_VOLTAGE : Nat := 166
def OCTO_FAN5_VOLTAGE : Nat := 179
def OCTO_FAN6_VOLTAGE : Nat := 192
def OCTO_FAN7_VOLTAGE : Nat := 205
def OCTO_FAN8_VOLTAGE : Nat := 218

def OCTO_FAN1_CURRENT : Nat := 129
def OCTO_FAN2_CURRENT : Nat := 142
def OCTO_FAN3_CURRENT : Nat := 155
def OCTO_FAN4_CURRENT : Nat := 168
def OCTO_FAN5_CURRENT : Nat := 181
def OCTO_FAN6_CURRENT : Nat := 194
def OCTO_FAN7_CURRENT : Nat := 207
def OCTO_FAN8_CURRENT : Nat := 220

/- Labels for provided values -/

def L_TEMP1 : String := "Temp1"
def L_TEMP2 : String := "Temp2"
def L_TEMP3 : String := "Temp3"
def L_TEMP4 : String := "Temp4"

def L_FLOW_SPEED : String := "Flow speed [l/h]"
def L_FAN1_SPEED : String := "Fan1 speed"
def L_FAN2_SPEED : String := "Fan2 speed"
def L_FAN3_SPEED : String := "Fan3 speed"
def L_FAN4_SPEED : String := "Fan4 speed"
def L_FAN5_SPEED : String := "Fan5 speed"
def L_FAN6_SPEED : String := "Fan6 speed"
def L_FAN7_SPEED : String := "Fan7 speed"
def L_FAN8_SPEED : String := "Fan8 speed"

def L_FAN1_POWER : String := "Fan1 power"
def L_FAN2_POWER : String := "Fan2 power"
def L_FAN3_POWER : String := "Fan3 power"
def L_FAN4_POWER : String := "Fan4 power"
def L_FAN5_POWER : String := "Fan5 power"
def L_FAN6_POWER : String := "Fan6 power"
def L_FAN7_POWER : String := "Fan7 power"
def L_FAN8_POWER : String := "Fan8 power"

def L_OCTO_VOLTAGE : String := "VCC"
def L_FAN1_VOLTAGE : String := "Fan1 voltage"
def L_FAN2_VOLTAGE : String := "Fan2 voltage"
def L_FAN3_VOLTAGE : String := "Fan3 voltage"
def L_FAN4_VOLTAGE : String := "Fan4 voltage"
def L_FAN5_VOLTAGE : String := "Fan5 voltage"
def L_FAN6_VOLTAGE : String := "Fan6 voltage"
def L_FAN7_VOLTAGE : String := "Fan7 voltage"
def L_FAN8_VOLTAGE : String := "Fan8 voltage"

def L_FAN1_CURRENT : String := "Fan1 current"
def L_FAN2_CURRENT : String := "Fan2 current"
def L_FAN3_CURRENT : String := "Fan3 current"
def L_FAN4_CURRENT : String := "Fan4 current"
def L_FAN5_CURRENT : String := "Fan1 current"
def L_FAN6_CURRENT : String := "Fan2 current"
def L_FAN7_CURRENT : String := "Fan3 current"
def L_FAN8_CURRENT : String := "Fan4 current"

def label_temps : List String := [L_TEMP1, L_TEMP2, L_TEMP3, L_TEMP4]

def label_speeds : List String :=
  [L_FLOW_SPEED, L_FAN1_SPEED, L_FAN2_SPEED, L_FAN3_SPEED, L_FAN4_SPEED,
   L_FAN5_SPEED, L_FAN6_SPEED, L_FAN7_SPEED, L_FAN8_SPEED]

def label_power : List String :=
  [L_FAN1_POWER, L_FAN2_POWER, L_FAN3_POWER, L_FAN4_POWER,
   L_FAN5_POWER, L_FAN6_POWER, L_FAN7_POWER, L_FAN8_POWER]

def label_voltages : List String :=
  [L_OCTO_VOLTAGE, L_FAN1_VOLTAGE, L_FAN2_VOLTAGE, L_FAN3_VOLTAGE, L_FAN4_VOLTAGE,
   L_FAN5_VOLTAGE, L_FAN6_VOLTAGE, L_FAN7_VOLTAGE, L_FAN8_VOLTAGE]

def label_current : List String :=
  [L_FAN1_CURRENT, L_FAN2_CURRENT, L_FAN3_CURRENT, L_FAN4_CURRENT,
   L_FAN5_CURRENT, L_FAN6_CURRENT, L_FAN7_CURRENT, L_FAN8_CURRENT]

/-- `get_unaligned_be16`: two bytes, big-endian. -/
def get_unaligned_be16 (data : Nat → Nat) (off : Nat) : Nat :=
  data off % 256 * 256 + data (off + 1) % 256

/-- `get_unaligned_be32`: four bytes, big-endian. -/
def get_unaligned_be32 (data : Nat → Nat) (off : Nat) : Nat :=
  data off % 256 * 2 ^ 24 + data (off + 1) % 256 * 2 ^ 16 +
    data (off + 2) % 256 * 2 ^ 8 + data (off + 3) % 256

/-- `struct octo_data`.  The C declarations are `s32 temp_input[4]`,
`u16 speed_input[9]`, `u32 power_input[8]`, `u16 voltage_input[9]`,
`u16 current_input[8]`, `u32 serial_number[2]`, `u16 firmware_version`,
`u32 power_cycles`, `unsigned long updated`.  Each array is embedded as a
total function; indices at or beyond the declared length stand for whatever
adjacent memory an out-of-bounds C array index would reach. -/
@[ext] structure octo_data where
  temp_input : Nat → Int
  speed_input : Nat → Nat
  power_input : Nat → Nat
  voltage_input : Nat → Nat
  current_input : Nat → Nat
  serial_number : Nat → Nat
  firmware_version : Nat
  power_cycles : Nat
  updated : Nat

/-- Kernel macro `time_after(a, b)`, that is `(long)((b) - (a)) < 0` on
`unsigned long` values: true when the wrapped difference `b - a` has its top
bit set. -/
def time_after (a b : Nat) : Bool :=
  decide (2 ^ 63 ≤ (b + (ULONG_MOD - a % ULONG_MOD)) % ULONG_MOD)

/-- `octo_read`: fails with `-ENODATA` when the snapshot is stale
(`time_after(jiffies, priv->updated + OCTO_STATUS_UPDATE_INTERVAL)`),
otherwise returns the stored value for the requested sensor type and channel;
no bounds check is performed on `channel`. -/
def octo_read (hz : Nat) (st : octo_data) (type : hwmon_sensor_types)
    (channel : Nat) (jiffies : Nat) : Except Int Int :=
  if time_after jiffies ((st.updated + OCTO_STATUS_UPDATE_INTERVAL hz) % ULONG_MOD) then
    .error (-ENODATA)
  else
    match type with
    | .hwmon_temp => .ok (st.temp_input channel)
    | .hwmon_fan => .ok (st.speed_input channel)
    | .hwmon_power => .ok (st.power_input channel)
    | .hwmon_in => .ok (st.voltage_input channel)
    | .hwmon_curr => .ok (st.current_input channel)
    | .hwmon_other => .error (-EOPNOTSUPP)

/-- `octo_read_string`: returns the label from the per-category label array;
it consults neither the snapshot nor the clock.  No bounds check is performed
on `channel` in the C either; in-range indices are the only ones the hwmon
core ever passes, and the claims below only concern those. -/
def octo_read_string (type : hwmon_sensor_types) (channel : Nat) :
    Except Int String :=
  match type with
  | .hwmon_temp => .ok (label_temps.getD channel "")
  | .hwmon_fan => .ok (label_speeds.getD channel "")
  | .hwmon_power => .ok (label_power.getD channel "")
  | .hwmon_in => .ok (label_voltages.getD channel "")
  | .hwmon_curr => .ok (label_current.getD channel "")
  | .hwmon_other => .error (-EOPNOTSUPP)

/-- The channel counts advertised to the hwmon core by the
`HWMON_CHANNEL_INFO` entries of `octo_info`: 4 temperature, 9 fan/flow speed,
8 power, 9 voltage, 8 current channels, every one with INPUT and LABEL. -/
def octo_info : List (hwmon_sensor_types × Nat) :=
  [(.hwmon_temp, 4), (.hwmon_fan, 9), (.hwmon_power, 8),
   (.hwmon_in, 9), (.hwmon_curr, 8)]

/-- `octo_raw_event`: returns `(new state, return value)`.  A report whose id
differs from `OCTO_STATUS_REPORT_ID` returns 0 at once without touching the
state.  Otherwise every field is decoded from the buffer at its fixed offset
and stored, and `updated` is stamped with the current `jiffies`.  The `size`
argument is accepted (as in the C signature) and never consulted.  The store
into the `u16` array `voltage_input` truncates the `int` expression
`get_unaligned_be16(...) * 10` mod `2 ^ 16`; every other store fits its
target width. -/
def octo_raw_event (st : octo_data) (report_id : Nat) (data : Nat → Nat)
    (size : Int) (jiffies : Nat) : octo_data × Int :=
  if report_id ≠ OCTO_STATUS_REPORT_ID then (st, 0)
  else
    ({ st with
        serial_number := fun i => match i with
          | 0 => get_unaligned_be16 data OCTO_SERIAL_FIRST_PART
          | 1 => get_unaligned_be16 data OCTO_SERIAL_SECOND_PART
          | i => st.serial_number i,
        firmware_version := get_unaligned_be16 data OCTO_FIRMWARE_VERSION,
        power_cycles := get_unaligned_be32 data OCTO_POWER_CYCLES,
        temp_input := fun i => match i with
          | 0 => (get_unaligned_be16 data OCTO_TEMP1 : Int) * 10
          | 1 => (get_unaligned_be16 data OCTO_TEMP2 : Int) * 10
          | 2 => (get_unaligned_be16 data OCTO_TEMP3 : Int) * 10
          | 3 => (get_unaligned_be16 data OCTO_TEMP4 : Int) * 10
          | i => st.temp_input i,
        speed_input := fun i => match i with
          | 0 => get_unaligned_be16 data OCTO_FLOW_SPEED / 10
          | 1 => get_unaligned_be16 data OCTO_FAN1_SPEED
          | 2 => get_unaligned_be16 data OCTO_FAN2_SPEED
          | 3 => get_unaligned_be16 data OCTO_FAN3_SPEED
          | 4 => get_unaligned_be16 data OCTO_FAN4_SPEED
          | 5 => get_unaligned_be16 data OCTO_FAN5_SPEED
          | 6 => get_unaligned_be16 data OCTO_FAN6_SPEED
          | 7 => get_unaligned_be16 data OCTO_FAN7_SPEED
          | 8 => get_unaligned_be16 data OCTO_FAN8_SPEED
          | i => st.speed_input i,
        power_input := fun i => match i with
          | 0 => get_unaligned_be16 data OCTO_FAN1_POWER * 10000
          | 1 => get_unaligned_be16 data OCTO_FAN2_POWER * 10000
          | 2 => get_unaligned_be16 data OCTO_FAN3_POWER * 10000
          | 3 => get_unaligned_be16 data OCTO_FAN4_POWER * 10000
          | 4 => get_unaligned_be16 data OCTO_FAN5_POWER * 10000
          | 5 => get_unaligned_be16 data OCTO_FAN6_POWER * 10000
          | 6 => get_unaligned_be16 data OCTO_FAN7_POWER * 10000
          | 7 => get_unaligned_be16 data OCTO_FAN8_POWER * 10000
          | i => st.power_input i,
        voltage_input := fun i => match i with
          | 0 => get_unaligned_be16 data OCTO_VOLTAGE * 10 % 2 ^ 16
          | 1 => get_unaligned_be16 data OCTO_FAN1_VOLTAGE * 10 % 2 ^ 16
          | 2 => get_unaligned_be16 data OCTO_FAN2_VOLTAGE * 10 % 2 ^ 16
          | 3 => get_unaligned_be16 data OCTO_FAN3_VOLTAGE * 10 % 2 ^ 16
          | 4 => get_unaligned_be16 data OCTO_FAN4_VOLTAGE * 10 % 2 ^ 16
          | 5 => get_unaligned_be16 data OCTO_FAN5_VOLTAGE * 10 % 2 ^ 16
          | 6 => get_unaligned_be16 data OCTO_FAN6_VOLTAGE * 10 % 2 ^ 16
          | 7 => get_unaligned_be16 data OCTO_FAN7_VOLTAGE * 10 % 2 ^ 16
          | 8 => get_unaligned_be16 data OCTO_FAN8_VOLTAGE * 10 % 2 ^ 16
          | i => st.voltage_input i,
        current_input := fun i => match i with
          | 0 => get_unaligned_be16 data OCTO_FAN1_CURRENT
          | 1 => get_unaligned_be16 data OCTO_FAN2_CURRENT
          | 2 => get_unaligned_be16 data OCTO_FAN3_CURRENT
          | 3 => get_unaligned_be16 data OCTO_FAN4_CURRENT
          | 4 => get_unaligned_be16 data OCTO_FAN5_CURRENT
          | 5 => get_unaligned_be16 data OCTO_FAN6_CURRENT
          | 6 => get_unaligned_be16 data OCTO_FAN7_CURRENT
          | 7 => get_unaligned_be16 data OCTO_FAN8_CURRENT
          | i => st.current_input i,
        updated := jiffies }, 0)

/-- The state set up by `octo_probe`: `devm_kzalloc` zeroes the whole struct
and then `priv->updated = jiffies - OCTO_STATUS_UPDATE_INTERVAL` is an
`unsigned long` wrapping subtraction. -/
def octo_probe_state (jiffies hz : Nat) : octo_data :=
  { temp_input := fun _ => 0,
    speed_input := fun _ => 0,
    power_input := fun _ => 0,
    voltage_input := fun _ => 0,
    current_input := fun _ => 0,
    serial_number := fun _ => 0,
    firmware_version := 0,
    power_cycles := 0,
    updated := (jiffies + (ULONG_MOD - OCTO_STATUS_UPDATE_INTERVAL hz % ULONG_MOD)) % ULONG_MOD }

/-- `serial_number_show` prints `priv->serial_number[0]` and
`priv->serial_number[1]`; no freshness check. -/
def serial_number_show (st : octo_data) : Nat × Nat :=
  (st.serial_number 0, st.serial_number 1)

/-- `firmware_version_show` prints `priv->firmware_version`; no freshness
check. -/
def firmware_version_show (st : octo_data) : Nat :=
  st.firmware_version

/-- `power_cycles_show` prints `priv->power_cycles`; no freshness check. -/
def power_cycles_show (st : octo_data) : Nat :=
  st.power_cycles

/-- The sensor part of the state restricted to the declared C array lengths:
4 temperatures, 9 speeds, 8 powers, 9 voltages, 8 currents. -/
structure Snapshot where
  temps : List Int
  speeds : List Nat
  powers : List Nat
  voltages : List Nat
  currents : List Nat
deriving DecidableEq, Repr

/-- The identity-metadata part of the state: two serial-number parts,
firmware version, power-cycle count. -/
structure IdentityMetadata where
  serial_first : Nat
  serial_second : Nat
  firmware_version : Nat
  power_cycles : Nat
deriving DecidableEq, Repr

def snapshotOf (st : octo_data) : Snapshot :=
  { temps := [st.temp_input 0, st.temp_input 1, st.temp_input 2, st.temp_input 3],
    speeds := [st.speed_input 0, st.speed_input 1, st.speed_input 2, st.speed_input 3,
               st.speed_input 4, st.speed_input 5, st.speed_input 6, st.speed_input 7,
               st.speed_input 8],
    powers := [st.power_input 0, st.power_input 1, st.power_input 2, st.power_input 3,
               st.power_input 4, st.power_input 5, st.power_input 6, st.power_input 7],
    voltages := [st.voltage_input 0, st.voltage_input 1, st.voltage_input 2,
                 st.voltage_input 3, st.voltage_input 4, st.voltage_input 5,
                 st.voltage_input 6, st.voltage_input 7, st.voltage_input 8],
    currents := [st.current_input 0, st.current_input 1, st.current_input 2,
                 st.current_input 3, st.current_input 4, st.current_input 5,
                 st.current_input 6, st.current_input 7] }

def identityOf (st : octo_data) : IdentityMetadata :=
  { serial_first := st.serial_number 0,
    serial_second := st.serial_number 1,
    firmware_version := st.firmware_version,
    power_cycles := st.power_cycles }

/-- A report buffer holding the 16-bit big-endian value `v` at offset `off`
and zero everywhere else. -/
def exampleReportAt (off v : Nat) : Nat → Nat :=
  fun i => if i = off then v / 256 else if i = off + 1 then v % 256 else 0

/-- All-zero memory: a report of zeros, together with whatever lies beyond it
also being zero. -/
def shortZeroReport : Nat → Nat := fun _ => 0

/-- Memory whose first 10 bytes agree with `shortZeroReport` but whose byte at
address 62 (past the end of a 10-byte report, inside the range the decoder
reads) differs. -/
def shortReportAltMemory : Nat → Nat := fun i => if i = 62 then 200 else 0

/-- The state after a probe at jiffy 0 followed by one all-zero status report
published at jiffy 100 (`HZ = 100`): a concrete, fresh, fully-published
state. -/
def published_state : octo_data :=
  (octo_raw_event (octo_probe_state 0 100) OCTO_STATUS_REPORT_ID shortZeroReport 226 100).1

/-- Run a list of state transformers in order. -/
def run_writes (fs : List (octo_data → octo_data)) (st : octo_data) : octo_data :=
  fs.foldl (fun s f => f s) st

/-- The body of `octo_raw_event` on a matching report, decomposed into its 43
successive store statements, in source order: serial_number[0],
serial_number[1], firmware_version, power_cycles, temp_input[0..3],
speed_input[0..8], power_input[0..7], voltage_input[0..8],
current_input[0..7], updated.  The C code performs these stores one after the
other with no lock, so a concurrent reader can run between any two of them;
`publish_writes_run` below checks that running all 43 reproduces
`octo_raw_event` exactly. -/
def publish_writes (data : Nat → Nat) (jiffies : Nat) : List (octo_data → octo_data) :=
  [fun st => { st with serial_number := fun i => if i = 0 then get_unaligned_be16 data OCTO_SERIAL_FIRST_PART else st.serial_number i },
   fun st => { st with serial_number := fun i => if i = 1 then get_unaligned_be16 data OCTO_SERIAL_SECOND_PART else st.serial_number i },
   fun st => { st with firmware_version := get_unaligned_be16 data OCTO_FIRMWARE_VERSION },
   fun st => { st with power_cycles := get_unaligned_be32 data OCTO_POWER_CYCLES },
   fun st => { st with temp_input := fun i => if i = 0 then (get_unaligned_be16 data OCTO_TEMP1 : Int) * 10 else st.temp_input i },
   fun st => { st with temp_input := fun i => if i = 1 then (get_unaligned_be16 data OCTO_TEMP2 : Int) * 10 else st.temp_input i },
   fun st => { st with temp_input := fun i => if i = 2 then (get_unaligned_be16 data OCTO_TEMP3 : Int) * 10 else st.temp_input i },
   fun st => { st with temp_input := fun i => if i = 3 then (get_unaligned_be16 data OCTO_TEMP4 : Int) * 10 else st.temp_input i },
   fun st => { st with speed_input := fun i => if i = 0 then get_unaligned_be16 data OCTO_FLOW_SPEED / 10 else st.speed_input i },
   fun st => { st with speed_input := fun i => if i = 1 then get_unaligned_be16 data OCTO_FAN1_SPEED else st.speed_input i },
   fun st => { st with speed_input := fun i => if i = 2 then get_unaligned_be16 data OCTO_FAN2_SPEED else st.speed_input i },
   fun st => { st with speed_input := fun i => if i = 3 then get_unaligned_be16 data OCTO_FAN3_SPEED else st.speed_input i },
   fun st => { st with speed_input := fun i => if i = 4 then get_unaligned_be16 data OCTO_FAN4_SPEED else st.speed_input i },
   fun st => { st with speed_input := fun i => if i = 5 then get_unaligned_be16 data OCTO_FAN5_SPEED else st.speed_input i },
   fun st => { st with speed_input := fun i => if i = 6 then get_unaligned_be16 data OCTO_FAN6_SPEED else st.speed_input i },
   fun st => { st with speed_input := fun i => if i = 7 then get_unaligned_be16 data OCTO_FAN7_SPEED else st.speed_input i },
   fun st => { st with speed_input := fun i => if i = 8 then get_unaligned_be16 data OCTO_FAN8_SPEED else st.speed_input i },
   fun st => { st with power_input := fun i => if i = 0 then get_unaligned_be16 data OCTO_FAN1_POWER * 10000 else st.power_input i },
   fun st => { st with power_input := fun i => if i = 1 then get_unaligned_be16 data OCTO_FAN2_POWER * 10000 else st.power_input i },
   fun st => { st with power_input := fun i => if i = 2 then get_unaligned_be16 data OCTO_FAN3_POWER * 10000 else st.power_input i },
   fun st => { st with power_input := fun i => if i = 3 then get_unaligned_be16 data OCTO_FAN4_POWER * 10000 else st.power_input i },
   fun st => { st with power_input := fun i => if i = 4 then get_unaligned_be16 data OCTO_FAN5_POWER * 10000 else st.power_input i },
   fun st => { st with power_input := fun i => if i = 5 then get_unaligned_be16 data OCTO_FAN6_POWER * 10000 else st.power_input i },
   fun st => { st with power_input := fun i => if i = 6 then get_unaligned_be16 data OCTO_FAN7_POWER * 10000 else st.power_input i },
   fun st => { st with power_input := fun i => if i = 7 then get_unaligned_be16 data OCTO_FAN8_POWER * 10000 else st.power_input i },
   fun st => { st with voltage_input := fun i => if i = 0 then get_unaligned_be16 data OCTO_VOLTAGE * 10 % 2 ^ 16 else st.voltage_input i },
   fun st => { st with voltage_input := fun i => if i = 1 then get_unaligned_be16 data OCTO_FAN1_VOLTAGE * 10 % 2 ^ 16 else st.voltage_input i },
   fun st => { st with voltage_input := fun i => if i = 2 then get_unaligned_be16 data OCTO_FAN2_VOLTAGE * 10 % 2 ^ 16 else st.voltage_input i },
   fun st => { st with voltage_input := fun i => if i = 3 then get_unaligned_be16 data OCTO_FAN3_VOLTAGE * 10 % 2 ^ 16 else st.voltage_input i },
   fun st => { st with voltage_input := fun i => if i = 4 then get_unaligned_be16 data OCTO_FAN4_VOLTAGE * 10 % 2 ^ 16 else st.voltage_input i },
   fun st => { st with voltage_input := fun i => if i = 5 then get_unaligned_be16 data OCTO_FAN5_VOLTAGE * 10 % 2 ^ 16 else st.voltage_input i },
   fun st => { st with voltage_input := fun i => if i = 6 then get_unaligned_be16 data OCTO_FAN6_VOLTAGE * 10 % 2 ^ 16 else st.voltage_input i },
   fun st => { st with voltage_input := fun i => if i = 7 then get_unaligned_be16 data OCTO_FAN7_VOLTAGE * 10 % 2 ^ 16 else st.voltage_input i },
   fun st => { st with voltage_input := fun i => if i = 8 then get_unaligned_be16 data OCTO_FAN8_VOLTAGE * 10 % 2 ^ 16 else st.voltage_input i },
   fun st => { st with current_input := fun i => if i = 0 then get_unaligned_be16 data OCTO_FAN1_CURRENT else st.current_input i },
   fun st => { st with current_input := fun i => if i = 1 then get_unaligned_be16 data OCTO_FAN2_CURRENT else st.current_input i },
   fun st => { st with current_input := fun i => if i = 2 then get_unaligned_be16 data OCTO_FAN3_CURRENT else st.current_input i },
   fun st => { st with current_input := fun i => if i = 3 then get_unaligned_be16 data OCTO_FAN4_CURRENT else st.current_input i },
   fun st => { st with current_input := fun i => if i = 4 then get_unaligned_be16 data OCTO_FAN5_CURRENT else st.current_input i },
   fun st => { st with current_input := fun i => if i = 5 then get_unaligned_be16 data OCTO_FAN6_CURRENT else st.current_input i },
   fun st => { st with current_input := fun i => if i = 6 then get_unaligned_be16 data OCTO_FAN7_CURRENT else st.current_input i },
   fun st => { st with current_input := fun i => if i = 7 then get_unaligned_be16 data OCTO_FAN8_CURRENT else st.current_input i },
   fun st => { st with updated := jiffies }]

/-- The state a concurrent reader observes when it runs after the first `k` of
the 43 stores of a publish. -/
def mid_publish (k : Nat) (st : octo_data) (data : Nat → Nat) (jiffies : Nat) : octo_data :=
  run_writes ((publish_writes data jiffies).take k) st

/-- A previously published state whose first two temperature channels hold 3
and 5 (stored fixed-point values), published at jiffy 100. -/
def c3_old : octo_data :=
  { temp_input := fun i => if i = 0 then 3 else if i = 1 then 5 else 0,
    speed_input := fun _ => 0,
    power_input := fun _ => 0,
    voltage_input := fun _ => 0,
    current_input := fun _ => 0,
    serial_number := fun _ => 0,
    firmware_version := 0,
    power_cycles := 0,
    updated := 100 }

/-- A status report whose first temperature raw value is 200 (stored 2000) and
whose second is 7 (stored 70), so both temperature channels change when it is
published over `c3_old`. -/
def c3_data : Nat → Nat := fun i => if i = 62 then 200 else if i = 64 then 7 else 0

end AquacomputerOcto

namespace AquacomputerOcto

/-! Helper lemmas shared by the claim theorems. -/

/-- The sensor part of a decoded state, written out: each channel is the
16-bit big-endian field at its register offset with the per-category scaling
of the source (`× 10` for temperatures, `/ 10` for the flow channel, raw fan
speeds, `× 10000` for powers, `× 10 mod 2 ^ 16` for voltages through the
`u16` store, raw currents). -/
theorem snapshotOf_raw_event (st : octo_data) (data : Nat → Nat) (size : Int) (j : Nat) :
    snapshotOf (octo_raw_event st OCTO_STATUS_REPORT_ID data size j).1 =
      { temps := [(get_unaligned_be16 data OCTO_TEMP1 : Int) * 10,
                  (get_unaligned_be16 data OCTO_TEMP2 : Int) * 10,
                  (get_unaligned_be16 data OCTO_TEMP3 : Int) * 10,
                  (get_unaligned_be16 data OCTO_TEMP4 : Int) * 10],
        speeds := [get_unaligned_be16 data OCTO_FLOW_SPEED / 10,
                   get_unaligned_be16 data OCTO_FAN1_SPEED,
                   get_unaligned_be16 data OCTO_FAN2_SPEED,
                   get_unaligned_be16 data OCTO_FAN3_SPEED,
                   get_unaligned_be16 data OCTO_FAN4_SPEED,
                   get_unaligned_be16 data OCTO_FAN5_SPEED,
                   get_unaligned_be16 data OCTO_FAN6_SPEED,
                   get_unaligned_be16 data OCTO_FAN7_SPEED,
                   get_unaligned_be16 data OCTO_FAN8_SPEED],
        powers := [get_unaligned_be16 data OCTO_FAN1_POWER * 10000,
                   get_unaligned_be16 data OCTO_FAN2_POWER * 10000,
                   get_unaligned_be16 data OCTO_FAN3_POWER * 10000,
                   get_unaligned_be16 data OCTO_FAN4_POWER * 10000,
                   get_unaligned_be16 data OCTO_FAN5_POWER * 10000,
                   get_unaligned_be16 data OCTO_FAN6_POWER * 10000,
                   get_unaligned_be16 data OCTO_FAN7_POWER * 10000,
                   get_unaligned_be16 data OCTO_FAN8_POWER * 10000],
        voltages := [get_unaligned_be16 data OCTO_VOLTAGE * 10 % 2 ^ 16,
                     get_unaligned_be16 data OCTO_FAN1_VOLTAGE * 10 % 2 ^ 16,
                     get_unaligned_be16 data OCTO_FAN2_VOLTAGE * 10 % 2 ^ 16,
                     get_unaligned_be16 data OCTO_FAN3_VOLTAGE * 10 % 2 ^ 16,
                     get_unaligned_be16 data OCTO_FAN4_VOLTAGE * 10 % 2 ^ 16,
                     get_unaligned_be16 data OCTO_FAN5_VOLTAGE * 10 % 2 ^ 16,
                     get_unaligned_be16 data OCTO_FAN6_VOLTAGE * 10 % 2 ^ 16,
                     get_unaligned_be16 data OCTO_FAN7_VOLTAGE * 10 % 2 ^ 16,
                     get_unaligned_be16 data OCTO_FAN8_VOLTAGE * 10 % 2 ^ 16],
        currents := [get_unaligned_be16 data OCTO_FAN1_CURRENT,
                     get_unaligned_be16 data OCTO_FAN2_CURRENT,
                     get_unaligned_be16 data OCTO_FAN3_CURRENT,
                     get_unaligned_be16 data OCTO_FAN4_CURRENT,
                     get_unaligned_be16 data OCTO_FAN5_CURRENT,
                     get_unaligned_be16 data OCTO_FAN6_CURRENT,
                     get_unaligned_be16 data OCTO_FAN7_CURRENT,
                     get_unaligned_be16 data OCTO_FAN8_CURRENT] } := rfl

/-- The identity part of a decoded state, written out. -/
theorem identityOf_raw_event (st : octo_data) (data : Nat → Nat) (size : Int) (j : Nat) :
    identityOf (octo_raw_event st OCTO_STATUS_REPORT_ID data size j).1 =
      { serial_first := get_unaligned_be16 data OCTO_SERIAL_FIRST_PART,
        serial_second := get_unaligned_be16 data OCTO_SERIAL_SECOND_PART,
        firmware_version := get_unaligned_be16 data OCTO_FIRMWARE_VERSION,
        power_cycles := get_unaligned_be32 data OCTO_POWER_CYCLES } := rfl

/-- Model validation for the step decomposition: running the 43 stores of
`publish_writes` in source order reproduces `octo_raw_event` on a matching
report exactly. -/
theorem publish_writes_run (st : octo_data) (data : Nat → Nat) (size : Int) (j : Nat) :
    run_writes (publish_writes data j) st =
      (octo_raw_event st OCTO_STATUS_REPORT_ID data size j).1 := by
  simp only [run_writes, publish_writes, List.foldl, octo_raw_event, ne_eq]
  rw [if_neg (by simp)]
  ext i
  · rcases i with _|_|_|_|i <;> simp
  · rcases i with _|_|_|_|_|_|_|_|_|i <;> simp
  · rcases i with _|_|_|_|_|_|_|_|i <;> simp
  · rcases i with _|_|_|_|_|_|_|_|_|i <;> simp
  · rcases i with _|_|_|_|_|_|_|_|i <;> simp
  · rcases i with _|_|i <;> simp
  · rfl
  · rfl
  · rfl

end AquacomputerOcto

namespace AquacomputerOcto

/-! The claim theorems. -/

/-- C1 (amended): for every raw report with the expected identifier, decode
extracts each channel's 16-bit big-endian raw value at its fixed register
offset and scales it per category: temperatures raw × 10, the flow-speed
channel (speed index 0) raw ÷ 10 truncating, fan-speed channels raw unscaled,
power channels raw × 10000, voltage channels raw × 10 truncated by the 16-bit
store (mod 2^16), current channels raw unscaled; and the spec's examples hold:
temperature bytes 0x00C8 decode to 2000, flow bytes 0x0032 to 5, power bytes
0x0001 to 10000, voltage bytes 0x0005 to 50. -/
theorem decode_scaling (st : octo_data) (data : Nat → Nat) (size : Int) (j : Nat) :
    ((octo_raw_event st OCTO_STATUS_REPORT_ID data size j).1.temp_input 0 =
      (get_unaligned_be16 data OCTO_TEMP1 : Int) * 10) ∧
    ((octo_raw_event st OCTO_STATUS_REPORT_ID data size j).1.temp_input 1 =
      (get_unaligned_be16 data OCTO_TEMP2 : Int) * 10) ∧
    ((octo_raw_event st OCTO_STATUS_REPORT_ID data size j).1.temp_input 2 =
      (get_unaligned_be16 data OCTO_TEMP3 : Int) * 10) ∧
    ((octo_raw_event st OCTO_STATUS_REPORT_ID data size j).1.temp_input 3 =
      (get_unaligned_be16 data OCTO_TEMP4 : Int) * 10) ∧
    ((octo_raw_event st OCTO_STATUS_REPORT_ID data size j).1.speed_input 0 =
      get_unaligned_be16 data OCTO_FLOW_SPEED / 10) ∧
    ((octo_raw_event st OCTO_STATUS_REPORT_ID data size j).1.speed_input 1 =
      get_unaligned_be16 data OCTO_FAN1_SPEED) ∧
    ((octo_raw_event st OCTO_STATUS_REPORT_ID data size j).1.speed_input 2 =
      get_unaligned_be16 data OCTO_FAN2_SPEED) ∧
    ((octo_raw_event st OCTO_STATUS_REPORT_ID data size j).1.speed_input 3 =
      get_unaligned_be16 data OCTO_FAN3_SPEED) ∧
    ((octo_raw_event st OCTO_STATUS_REPORT_ID data size j).1.speed_input 4 =
      get_unaligned_be16 data OCTO_FAN4_SPEED) ∧
    ((octo_raw_event st OCTO_STATUS_REPORT_ID data size j).1.speed_input 5 =
      get_unaligned_be16 data OCTO_FAN5_SPEED) ∧
    ((octo_raw_event st OCTO_STATUS_REPORT_ID data size j).1.speed_input 6 =
      get_unaligned_be16 data OCTO_FAN6_SPEED) ∧
    ((octo_raw_event st OCTO_STATUS_REPORT_ID data size j).1.speed_input 7 =
      get_unaligned_be16 data OCTO_FAN7_SPEED) ∧
    ((octo_raw_event st OCTO_STATUS_REPORT_ID data size j).1.speed_input 8 =
      get_unaligned_be16 data OCTO_FAN8_SPEED) ∧
    ((octo_raw_event st OCTO_STATUS_REPORT_ID data size j).1.power_input 0 =
      get_unaligned_be16 data OCTO_FAN1_POWER * 10000) ∧
    ((octo_raw_event st OCTO_STATUS_REPORT_ID data size j).1.power_input 1 =
      get_unaligned_be16 data OCTO_FAN2_POWER * 10000) ∧
    ((octo_raw_event st OCTO_STATUS_REPORT_ID data size j).1.power_input 2 =
      get_unaligned_be16 data OCTO_FAN3_POWER * 10000) ∧
    ((octo_raw_event st OCTO_STATUS_REPORT_ID data size j).1.power_input 3 =
      get_unaligned_be16 data OCTO_FAN4_POWER * 10000) ∧
    ((octo_raw_event st OCTO_STATUS_REPORT_ID data size j).1.power_input 4 =
      get_unaligned_be16 data OCTO_FAN5_POWER * 10000) ∧
    ((octo_raw_event st OCTO_STATUS_REPORT_ID data size j).1.power_input 5 =
      get_unaligned_be16 data OCTO_FAN6_POWER * 10000) ∧
    ((octo_raw_event st OCTO_STATUS_REPORT_ID data size j).1.power_input 6 =
      get_unaligned_be16 data OCTO_FAN7_POWER * 10000) ∧
    ((octo_raw_event st OCTO_STATUS_REPORT_ID data size j).1.power_input 7 =
      get_unaligned_be16 data OCTO_FAN8_POWER * 10000) ∧
    ((octo_raw_event st OCTO_STATUS_REPORT_ID data size j).1.voltage_input 0 =
      get_unaligned_be16 data OCTO_VOLTAGE * 10 % 2 ^ 16) ∧
    ((octo_raw_event st OCTO_STATUS_REPORT_ID data size j).1.voltage_input 1 =
      get_unaligned_be16 data OCTO_FAN1_VOLTAGE * 10 % 2 ^ 16) ∧
    ((octo_raw_event st OCTO_STATUS_REPORT_ID data size j).1.voltage_input 2 =
      get_unaligned_be16 data OCTO_FAN2_VOLTAGE * 10 % 2 ^ 16) ∧
    ((octo_raw_event st OCTO_STATUS_REPORT_ID data size j).1.voltage_input 3 =
      get_unaligned_be16 data OCTO_FAN3_VOLTAGE * 10 % 2 ^ 16) ∧
    ((octo_raw_event st OCTO_STATUS_REPORT_ID data size j).1.voltage_input 4 =
      get_unaligned_be16 data OCTO_FAN4_VOLTAGE * 10 % 2 ^ 16) ∧
    ((octo_raw_event st OCTO_STATUS_REPORT_ID data size j).1.voltage_input 5 =
      get_unaligned_be16 data OCTO_FAN5_VOLTAGE * 10 % 2 ^ 16) ∧
    ((octo_raw_event st OCTO_STATUS_REPORT_ID data size j).1.voltage_input 6 =
      get_unaligned_be16 data OCTO_FAN6_VOLTAGE * 10 % 2 ^ 16) ∧
    ((octo_raw_event st OCTO_STATUS_REPORT_ID data size j).1.voltage_input 7 =
      get_unaligned_be16 data OCTO_FAN7_VOLTAGE * 10 % 2 ^ 16) ∧
    ((octo_raw_event st OCTO_STATUS_REPORT_ID data size j).1.voltage_input 8 =
      get_unaligned_be16 data OCTO_FAN8_VOLTAGE * 10 % 2 ^ 16) ∧
    ((octo_raw_event st OCTO_STATUS_REPORT_ID data size j).1.current_input 0 =
      get_unaligned_be16 data OCTO_FAN1_CURRENT) ∧
    ((octo_raw_event st OCTO_STATUS_REPORT_ID data size j).1.current_input 1 =
      get_unaligned_be16 data OCTO_FAN2_CURRENT) ∧
    ((octo_raw_event st OCTO_STATUS_REPORT_ID data size j).1.current_input 2 =
      get_unaligned_be16 data OCTO_FAN3_CURRENT) ∧
    ((octo_raw_event st OCTO_STATUS_REPORT_ID data size j).1.current_input 3 =
      get_unaligned_be16 data OCTO_FAN4_CURRENT) ∧
    ((octo_raw_event st OCTO_STATUS_REPORT_ID data size j).1.current_input 4 =
      get_unaligned_be16 data OCTO_FAN5_CURRENT) ∧
    ((octo_raw_event st OCTO_STATUS_REPORT_ID data size j).1.current_input 5 =
      get_unaligned_be16 data OCTO_FAN6_CURRENT) ∧
    ((octo_raw_event st OCTO_STATUS_REPORT_ID data size j).1.current_input 6 =
      get_unaligned_be16 data OCTO_FAN7_CURRENT) ∧
    ((octo_raw_event st OCTO_STATUS_REPORT_ID data size j).1.current_input 7 =
      get_unaligned_be16 data OCTO_FAN8_CURRENT) ∧
    ((octo_raw_event st OCTO_STATUS_REPORT_ID (exampleReportAt OCTO_TEMP1 0x00C8) 226 j).1.temp_input 0 = 2000) ∧
    ((octo_raw_event st OCTO_STATUS_REPORT_ID (exampleReportAt OCTO_FLOW_SPEED 0x0032) 226 j).1.speed_input 0 = 5) ∧
    ((octo_raw_event st OCTO_STATUS_REPORT_ID (exampleReportAt OCTO_FAN1_POWER 0x0001) 226 j).1.power_input 0 = 10000) ∧
    ((octo_raw_event st OCTO_STATUS_REPORT_ID (exampleReportAt OCTO_VOLTAGE 0x0005) 226 j).1.voltage_input 0 = 50) :=
  ⟨rfl, rfl, rfl, rfl, rfl, rfl, rfl, rfl, rfl, rfl, rfl, rfl, rfl, rfl, rfl, rfl, rfl,
   rfl, rfl, rfl, rfl, rfl, rfl, rfl, rfl, rfl, rfl, rfl, rfl, rfl, rfl, rfl, rfl, rfl,
   rfl, rfl, rfl, rfl, rfl, rfl, rfl, rfl⟩

/-- C1 counterexample to the claim as stated: a voltage raw value of 6554
(bytes 0x19 0x9A) is not decoded to 6554 × 10 = 65540; the store into the
`u16` array `voltage_input` truncates it to 65540 mod 2^16 = 4. -/
theorem voltage_scaling_truncates :
    get_unaligned_be16 (exampleReportAt OCTO_VOLTAGE 6554) OCTO_VOLTAGE = 6554 ∧
    (octo_raw_event (octo_probe_state 0 100) OCTO_STATUS_REPORT_ID
        (exampleReportAt OCTO_VOLTAGE 6554) 226 0).1.voltage_input 0 = 4 ∧
    (4 : Nat) ≠ 6554 * 10 :=
  ⟨rfl, rfl, by decide⟩

/-- C2: the code reads every field without checking `size`.  The result of
`octo_raw_event` on a matching report is entirely independent of the `size`
argument; a 10-byte report (far below the 226 bytes the register layout
needs) is still decoded and published, with `updated` stamped and 0 returned
instead of any `Malformed` failure, and the published values depend on memory
beyond the 10 reported bytes (the two concrete memories below agree on bytes
0..9 yet publish different temperatures). -/
theorem raw_event_no_length_check (st : octo_data) (data : Nat → Nat) (s1 s2 : Int) (j : Nat) :
    octo_raw_event st OCTO_STATUS_REPORT_ID data s1 j =
      octo_raw_event st OCTO_STATUS_REPORT_ID data s2 j ∧
    (octo_raw_event st OCTO_STATUS_REPORT_ID data 10 j).2 = 0 ∧
    (octo_raw_event st OCTO_STATUS_REPORT_ID data 10 j).1.updated = j ∧
    (∀ i, i < 10 → shortZeroReport i = shortReportAltMemory i) ∧
    (octo_raw_event st OCTO_STATUS_REPORT_ID shortZeroReport 10 j).1.temp_input 0 = 0 ∧
    (octo_raw_event st OCTO_STATUS_REPORT_ID shortReportAltMemory 10 j).1.temp_input 0 = 2000 := by
  refine ⟨rfl, rfl, rfl, ?_, rfl, rfl⟩
  intro i hi
  unfold shortZeroReport shortReportAltMemory
  rw [if_neg (by omega)]

/-- C3: a reader interleaved after the first five of the 43 stores of a
publish observes temperature channel 0 from the new cycle (2000) and
temperature channel 1 from the old cycle (5), a mixture of two publish
cycles: the old snapshot held (3, 5) and the new one holds (2000, 70). -/
theorem interleaved_read_mixes_cycles :
    octo_read 100 (mid_publish 5 c3_old c3_data 400) .hwmon_temp 0 150 = .ok 2000 ∧
    octo_read 100 (mid_publish 5 c3_old c3_data 400) .hwmon_temp 1 150 = .ok 5 ∧
    (octo_raw_event c3_old OCTO_STATUS_REPORT_ID c3_data 226 400).1.temp_input 0 = 2000 ∧
    (octo_raw_event c3_old OCTO_STATUS_REPORT_ID c3_data 226 400).1.temp_input 1 = 70 ∧
    c3_old.temp_input 0 = 3 ∧
    c3_old.temp_input 1 = 5 ∧
    (2000 : Int) ≠ 3 ∧
    (70 : Int) ≠ 5 :=
  ⟨rfl, rfl, rfl, rfl, rfl, rfl, by decide, by decide⟩

/-- C4 (amended): with no jiffies wraparound in the window of interest,
`octo_read` succeeds and returns the stored value for every channel exactly
when `now - last_publish ≤ OCTO_STATUS_UPDATE_INTERVAL` (note: less than OR
EQUAL, since `time_after` is strict), and fails with `-ENODATA` (`Stale`)
when `now - last_publish` exceeds the interval.  Instantiated at
`now = last_publish` this gives success immediately after a publish. -/
theorem read_freshness (hz : Nat) (st : octo_data) (ch now : Nat)
    (hI : 2 * hz < 2 ^ 63) (hno : now < 2 ^ 64) (hge : st.updated ≤ now)
    (hwin : now - st.updated < 2 ^ 63) :
    (now - st.updated ≤ OCTO_STATUS_UPDATE_INTERVAL hz →
      octo_read hz st .hwmon_temp ch now = .ok (st.temp_input ch) ∧
      octo_read hz st .hwmon_fan ch now = .ok (st.speed_input ch) ∧
      octo_read hz st .hwmon_power ch now = .ok (st.power_input ch) ∧
      octo_read hz st .hwmon_in ch now = .ok (st.voltage_input ch) ∧
      octo_read hz st .hwmon_curr ch now = .ok (st.current_input ch)) ∧
    (OCTO_STATUS_UPDATE_INTERVAL hz < now - st.updated →
      octo_read hz st .hwmon_temp ch now = .error (-ENODATA) ∧
      octo_read hz st .hwmon_fan ch now = .error (-ENODATA) ∧
      octo_read hz st .hwmon_power ch now = .error (-ENODATA) ∧
      octo_read hz st .hwmon_in ch now = .error (-ENODATA) ∧
      octo_read hz st .hwmon_curr ch now = .error (-ENODATA)) := by
  constructor
  · intro hfresh
    have h : time_after now ((st.updated + OCTO_STATUS_UPDATE_INTERVAL hz) % ULONG_MOD) = false := by
      simp only [time_after, OCTO_STATUS_UPDATE_INTERVAL, ULONG_MOD,
        decide_eq_false_iff_not, not_le] at hfresh ⊢
      omega
    refine ⟨?_, ?_, ?_, ?_, ?_⟩ <;> simp [octo_read, h]
  · intro hstale
    have h : time_after now ((st.updated + OCTO_STATUS_UPDATE_INTERVAL hz) % ULONG_MOD) = true := by
      simp only [time_after, OCTO_STATUS_UPDATE_INTERVAL, ULONG_MOD,
        decide_eq_true_eq] at hstale ⊢
      omega
    refine ⟨?_, ?_, ?_, ?_, ?_⟩ <;> simp [octo_read, h]

/-- C4 witness: on the concrete published state (published at jiffy 100,
`HZ = 100`), a read at jiffy 150 succeeds and a read at jiffy 301 fails with
`-ENODATA`. -/
theorem read_freshness_witness :
    octo_read 100 published_state .hwmon_temp 0 150 = .ok (published_state.temp_input 0) ∧
    octo_read 100 published_state .hwmon_temp 0 301 = .error (-ENODATA) :=
  ⟨((read_freshness 100 published_state 0 150 (by decide) (by decide) (by decide)
      (by decide)).1 (by decide)).1,
   ((read_freshness 100 published_state 0 301 (by decide) (by decide) (by decide)
      (by decide)).2 (by decide)).1⟩

/-- C4 counterexample to the claim as stated: at `now - last_publish` exactly
equal to the staleness interval (published at jiffy 100, read at jiffy 300,
interval 200) the claim requires `Stale`, but `time_after(300, 100 + 200)` is
false and the read succeeds. -/
theorem read_at_exact_interval_succeeds :
    300 - published_state.updated = OCTO_STATUS_UPDATE_INTERVAL 100 ∧
    octo_read 100 published_state .hwmon_temp 0 300 = .ok 0 :=
  ⟨by decide, rfl⟩

/-- C5: a report whose id differs from `OCTO_STATUS_REPORT_ID` makes
`octo_raw_event` return 0 immediately (a non-error, `Ignored`), with the
whole state — snapshot, identity metadata and the `updated` timestamp —
untouched. -/
theorem raw_event_wrong_id (st : octo_data) (report_id : Nat) (data : Nat → Nat)
    (size : Int) (j : Nat) (h : report_id ≠ OCTO_STATUS_REPORT_ID) :
    octo_raw_event st report_id data size j = (st, 0) := by
  simp [octo_raw_event, h]

/-- C5 witness: a report with id 3 leaves the concrete published state
unchanged and returns 0. -/
theorem raw_event_wrong_id_witness :
    octo_raw_event published_state 3 shortReportAltMemory 226 999 = (published_state, 0) :=
  raw_event_wrong_id published_state 3 shortReportAltMemory 226 999 (by decide)

/-- C6 (amended): before any report has been published, reads fail with
`-ENODATA` (`Stale`) at every jiffy strictly after the creation instant
(`octo_probe` sets `updated = jiffies - OCTO_STATUS_UPDATE_INTERVAL`, so
`time_after(now, created)` holds for every later `now` in the window); at the
creation jiffy itself the strict `time_after` does not fire and reads
succeed, returning the zeroed values. -/
theorem probe_state_stale_after_creation (hz j0 now ch : Nat)
    (hIle : OCTO_STATUS_UPDATE_INTERVAL hz ≤ j0) (hj0 : j0 < 2 ^ 64)
    (hlt : j0 < now) (hno : now < 2 ^ 64) (hwin : now - j0 ≤ 2 ^ 63) :
    octo_read hz (octo_probe_state j0 hz) .hwmon_temp ch now = .error (-ENODATA) ∧
    octo_read hz (octo_probe_state j0 hz) .hwmon_fan ch now = .error (-ENODATA) ∧
    octo_read hz (octo_probe_state j0 hz) .hwmon_power ch now = .error (-ENODATA) ∧
    octo_read hz (octo_probe_state j0 hz) .hwmon_in ch now = .error (-ENODATA) ∧
    octo_read hz (octo_probe_state j0 hz) .hwmon_curr ch now = .error (-ENODATA) := by
  have h : time_after now (((octo_probe_state j0 hz).updated +
      OCTO_STATUS_UPDATE_INTERVAL hz) % ULONG_MOD) = true := by
    simp only [octo_probe_state, time_after, OCTO_STATUS_UPDATE_INTERVAL, ULONG_MOD,
      decide_eq_true_eq] at hIle ⊢
    omega
  refine ⟨?_, ?_, ?_, ?_, ?_⟩ <;> simp [octo_read, h]

/-- C6 witness: with `HZ = 100`, a device probed at jiffy 1000 returns
`-ENODATA` for a read one jiffy later. -/
theorem probe_state_stale_after_creation_witness :
    octo_read 100 (octo_probe_state 1000 100) .hwmon_temp 0 1001 = .error (-ENODATA) :=
  (probe_state_stale_after_creation 100 1000 1001 0 (by decide) (by decide) (by decide)
    (by decide) (by decide)).1

/-- C6 counterexample to the claim as stated: at the creation jiffy itself
(probe at jiffy 1000, read at jiffy 1000) the initial state is NOT stale —
`time_after(1000, 1000)` is false — and the read succeeds, returning the
zeroed sentinel value. -/
theorem probe_state_read_at_creation_succeeds :
    octo_read 100 (octo_probe_state 1000 100) .hwmon_temp 0 1000 = .ok 0 := rfl

/-- C7 (amended): neither `octo_read` nor the capability dispatch validates
the channel index — for ANY channel index, in range or not, a fresh
`octo_read` returns success with whatever the backing store holds at that
index, never an `InvalidChannel` error; out-of-range queries are excluded
only upstream, by the `octo_info` capability table, which declares exactly 4
temperature, 9 speed, 8 power, 9 voltage and 8 current channels. -/
theorem read_no_channel_validation (hz : Nat) (st : octo_data) (ch now : Nat)
    (hfresh : time_after now ((st.updated + OCTO_STATUS_UPDATE_INTERVAL hz) % ULONG_MOD) = false) :
    octo_read hz st .hwmon_temp ch now = .ok (st.temp_input ch) ∧
    octo_read hz st .hwmon_fan ch now = .ok (st.speed_input ch) ∧
    octo_read hz st .hwmon_power ch now = .ok (st.power_input ch) ∧
    octo_read hz st .hwmon_in ch now = .ok (st.voltage_input ch) ∧
    octo_read hz st .hwmon_curr ch now = .ok (st.current_input ch) ∧
    octo_info = [(.hwmon_temp, 4), (.hwmon_fan, 9), (.hwmon_power, 8),
                 (.hwmon_in, 9), (.hwmon_curr, 8)] := by
  refine ⟨?_, ?_, ?_, ?_, ?_, rfl⟩ <;> simp [octo_read, hfresh]

/-- C7 witness: channel 4 is out of range for the temperature category
(0..3), yet the read succeeds. -/
theorem read_no_channel_validation_witness :
    octo_read 100 published_state .hwmon_temp 4 150 = .ok (published_state.temp_input 4) ∧
    octo_read 100 published_state .hwmon_fan 4 150 = .ok (published_state.speed_input 4) ∧
    octo_read 100 published_state .hwmon_power 4 150 = .ok (published_state.power_input 4) ∧
    octo_read 100 published_state .hwmon_in 4 150 = .ok (published_state.voltage_input 4) ∧
    octo_read 100 published_state .hwmon_curr 4 150 = .ok (published_state.current_input 4) ∧
    octo_info = [(.hwmon_temp, 4), (.hwmon_fan, 9), (.hwmon_power, 8),
                 (.hwmon_in, 9), (.hwmon_curr, 8)] :=
  read_no_channel_validation 100 published_state 4 150 (by decide)

/-- C7 counterexample to the claim as stated: a query for temperature channel
4 — out of the registry's range 0..3 — does not fail with `InvalidChannel`;
it returns a value. -/
theorem read_out_of_range_returns_value :
    octo_read 100 published_state .hwmon_temp 4 150 = .ok 0 := rfl

/-- C8: for every category and in-range index, `octo_read_string` succeeds
with the registry label for that index (it consults neither the snapshot
state nor the clock, as its signature shows); the identity reads return the
stored serial-number parts, firmware version and power-cycle count for every
state with no freshness check, and on the probe (pre-first-publish) state
they return the zeroed sentinel. -/
theorem labels_identity_fresh_independent (i f p v c j0 hz : Nat) (st : octo_data)
    (hi : i < 4) (hf : f < 9) (hp : p < 8) (hv : v < 9) (hc : c < 8) :
    (∃ lbl, label_temps.get? i = some lbl ∧ octo_read_string .hwmon_temp i = .ok lbl) ∧
    (∃ lbl, label_speeds.get? f = some lbl ∧ octo_read_string .hwmon_fan f = .ok lbl) ∧
    (∃ lbl, label_power.get? p = some lbl ∧ octo_read_string .hwmon_power p = .ok lbl) ∧
    (∃ lbl, label_voltages.get? v = some lbl ∧ octo_read_string .hwmon_in v = .ok lbl) ∧
    (∃ lbl, label_current.get? c = some lbl ∧ octo_read_string .hwmon_curr c = .ok lbl) ∧
    serial_number_show st = (st.serial_number 0, st.serial_number 1) ∧
    firmware_version_show st = st.firmware_version ∧
    power_cycles_show st = st.power_cycles ∧
    serial_number_show (octo_probe_state j0 hz) = (0, 0) ∧
    firmware_version_show (octo_probe_state j0 hz) = 0 ∧
    power_cycles_show (octo_probe_state j0 hz) = 0 := by
  refine ⟨?_, ?_, ?_, ?_, ?_, rfl, rfl, rfl, rfl, rfl, rfl⟩
  · interval_cases i <;> exact ⟨_, rfl, rfl⟩
  · interval_cases f <;> exact ⟨_, rfl, rfl⟩
  · interval_cases p <;> exact ⟨_, rfl, rfl⟩
  · interval_cases v <;> exact ⟨_, rfl, rfl⟩
  · interval_cases c <;> exact ⟨_, rfl, rfl⟩

/-- C8 witness at index 0 of every category, probe parameters (1000, 100),
and the concrete published state. -/
theorem labels_identity_fresh_independent_witness :
    (∃ lbl, label_temps.get? 0 = some lbl ∧ octo_read_string .hwmon_temp 0 = .ok lbl) ∧
    (∃ lbl, label_speeds.get? 0 = some lbl ∧ octo_read_string .hwmon_fan 0 = .ok lbl) ∧
    (∃ lbl, label_power.get? 0 = some lbl ∧ octo_read_string .hwmon_power 0 = .ok lbl) ∧
    (∃ lbl, label_voltages.get? 0 = some lbl ∧ octo_read_string .hwmon_in 0 = .ok lbl) ∧
    (∃ lbl, label_current.get? 0 = some lbl ∧ octo_read_string .hwmon_curr 0 = .ok lbl) ∧
    serial_number_show published_state =
      (published_state.serial_number 0, published_state.serial_number 1) ∧
    firmware_version_show published_state = published_state.firmware_version ∧
    power_cycles_show published_state = published_state.power_cycles ∧
    serial_number_show (octo_probe_state 1000 100) = (0, 0) ∧
    firmware_version_show (octo_probe_state 1000 100) = 0 ∧
    power_cycles_show (octo_probe_state 1000 100) = 0 :=
  labels_identity_fresh_independent 0 0 0 0 0 1000 100 published_state
    (by decide) (by decide) (by decide) (by decide) (by decide)

/-- C9: decoding a matching report of sufficient length is a deterministic
function of the report bytes: two decodes from memories that agree on every
byte below `size` (with `size` at least 226, the largest offset plus width
the registers reference) produce identical Snapshots and identical
IdentityMetadata, whatever the prior states and timestamps were. -/
theorem decode_deterministic (st1 st2 : octo_data) (d1 d2 : Nat → Nat) (size : Int)
    (j1 j2 : Nat) (hsize : 226 ≤ size)
    (hagree : ∀ i : Nat, (i : Int) < size → d1 i = d2 i) :
    snapshotOf (octo_raw_event st1 OCTO_STATUS_REPORT_ID d1 size j1).1 =
      snapshotOf (octo_raw_event st2 OCTO_STATUS_REPORT_ID d2 size j2).1 ∧
    identityOf (octo_raw_event st1 OCTO_STATUS_REPORT_ID d1 size j1).1 =
      identityOf (octo_raw_event st2 OCTO_STATUS_REPORT_ID d2 size j2).1 := by
  have h16 : ∀ off : Nat, off < 225 → get_unaligned_be16 d1 off = get_unaligned_be16 d2 off := by
    intro off hoff
    unfold get_unaligned_be16
    rw [hagree off (by omega), hagree (off + 1) (by omega)]
  have h32 : get_unaligned_be32 d1 OCTO_POWER_CYCLES = get_unaligned_be32 d2 OCTO_POWER_CYCLES := by
    simp only [get_unaligned_be32, OCTO_POWER_CYCLES]
    rw [hagree 24 (by omega), hagree 25 (by omega), hagree 26 (by omega),
      hagree 27 (by omega)]
  constructor
  · rw [snapshotOf_raw_event, snapshotOf_raw_event]
    simp only [OCTO_TEMP1, OCTO_TEMP2, OCTO_TEMP3, OCTO_TEMP4, OCTO_FLOW_SPEED,
      OCTO_FAN1_SPEED, OCTO_FAN2_SPEED, OCTO_FAN3_SPEED, OCTO_FAN4_SPEED, OCTO_FAN5_SPEED,
      OCTO_FAN6_SPEED, OCTO_FAN7_SPEED, OCTO_FAN8_SPEED, OCTO_FAN1_POWER, OCTO_FAN2_POWER,
      OCTO_FAN3_POWER, OCTO_FAN4_POWER, OCTO_FAN5_POWER, OCTO_FAN6_POWER, OCTO_FAN7_POWER,
      OCTO_FAN8_POWER, OCTO_VOLTAGE, OCTO_FAN1_VOLTAGE, OCTO_FAN2_VOLTAGE, OCTO_FAN3_VOLTAGE,
      OCTO_FAN4_VOLTAGE, OCTO_FAN5_VOLTAGE, OCTO_FAN6_VOLTAGE, OCTO_FAN7_VOLTAGE,
      OCTO_FAN8_VOLTAGE, OCTO_FAN1_CURRENT, OCTO_FAN2_CURRENT, OCTO_FAN3_CURRENT,
      OCTO_FAN4_CURRENT, OCTO_FAN5_CURRENT, OCTO_FAN6_CURRENT, OCTO_FAN7_CURRENT,
      OCTO_FAN8_CURRENT]
    simp [h16]
  · rw [identityOf_raw_event, identityOf_raw_event]
    simp only [OCTO_SERIAL_FIRST_PART, OCTO_SERIAL_SECOND_PART, OCTO_FIRMWARE_VERSION]
    simp [h16, h32]

/-- C9 witness: two decodes of the same 226-byte buffer from different prior
states and at different jiffies give the same Snapshot and
IdentityMetadata. -/
theorem decode_deterministic_witness :
    snapshotOf (octo_raw_event (octo_probe_state 0 100) OCTO_STATUS_REPORT_ID
        shortZeroReport 226 5).1 =
      snapshotOf (octo_raw_event c3_old OCTO_STATUS_REPORT_ID shortZeroReport 226 9).1 ∧
    identityOf (octo_raw_event (octo_probe_state 0 100) OCTO_STATUS_REPORT_ID
        shortZeroReport 226 5).1 =
      identityOf (octo_raw_event c3_old OCTO_STATUS_REPORT_ID shortZeroReport 226 9).1 :=
  decode_deterministic (octo_probe_state 0 100) c3_old shortZeroReport shortZeroReport
    226 5 9 (by decide) (fun _ _ => rfl)

/-- C10: in the current category the label arrays repeat: channels 4..7 carry
the same labels as channels 0..3 ("Fan1 current" .. "Fan4 current"), so a
current-channel label does not uniquely identify its channel. -/
theorem current_labels_repeat :
    octo_read_string .hwmon_curr 4 = octo_read_string .hwmon_curr 0 ∧
    octo_read_string .hwmon_curr 5 = octo_read_string .hwmon_curr 1 ∧
    octo_read_string .hwmon_curr 6 = octo_read_string .hwmon_curr 2 ∧
    octo_read_string .hwmon_curr 7 = octo_read_string .hwmon_curr 3 ∧
    octo_read_string .hwmon_curr 0 = .ok "Fan1 current" ∧
    octo_read_string .hwmon_curr 1 = .ok "Fan2 current" ∧
    octo_read_string .hwmon_curr 2 = .ok "Fan3 current" ∧
    octo_read_string .hwmon_curr 3 = .ok "Fan4 current" :=
  ⟨rfl, rfl, rfl, rfl, rfl, rfl, rfl, rfl⟩

end AquacomputerOcto
